import Mathlib

/-!
# SampSharp plugin bridge — formal model

Shallow embedding of `src/SampSharp/main.cpp`: the lifecycle & dispatch
bridge between the host server's native scripting VM and the managed
game-mode runtime.

The bridge's own mutable state is the flag `filterscript_loaded` together
with the observable `IsLoaded` states of the two external handles
(Managed Runtime Handle, GameMode Handle).  External handle lifecycles are
modelled per the spec's §3 Data Model: `MonoRuntime::Load` makes the
runtime loaded; `GameMode::Load` makes the game mode loaded exactly when
it returns `true`; the respective `Unload` calls make them unloaded.

Every call the bridge makes into an external collaborator (handles,
logging, RCON, codepage, symbol conversion) is recorded as an event in an
output trace, so that "calls X exactly once", "calls X before Y" and
"performs no calls" become statements about the trace.
-/

/-- An observable action of the bridge: a call into one of the external
collaborators of `main.cpp` (logging, host server, Mono runtime handle,
GameMode handle, sampgdk base layer, codepage subsystem). -/
inductive Ev where
  | log (s : String)
  | rcon (cmd : String)
  | monoLoad (assemblyDir configDir : String) (traceLevel : Nat) (entryAssembly : String)
  | monoUnload
  | setCodepage (cp : Nat)
  | convertSym (path : String)
  | gmLoad (ns cls : String)
  | gmUnload
  | gmProcessPublicCall (name : String)
  | gmProcessTick
  | gdkLoad
  | gdkUnload
  | gdkProcessTick
  | configRead
  | wireAmxExports
  deriving DecidableEq, Repr

/-- The lifecycle state visible to the bridge: the file-level flag
`filterscript_loaded` (main.cpp line 32) plus the `IsLoaded` observables of
the Managed Runtime Handle and the GameMode Handle. -/
structure BridgeState where
  filterscript_loaded : Bool
  monoLoaded : Bool
  gmLoaded : Bool
  deriving DecidableEq, Repr

/-- State at process attach: nothing requested or loaded yet. -/
def initState : BridgeState := ⟨false, false, false⟩

/-- The configuration snapshot and path utilities consumed (read-only) by
the bridge: `Config::Get*`, `PathUtil::GetGameModeDirectory`,
`PathUtil::GetPathInBin`, and which paths an `std::ifstream` can open. -/
structure Env where
  symbolFiles : String
  gameModeDir : String
  binDir : String
  monoAssemblyDir : String
  monoConfigDir : String
  traceLevel : Nat
  codepage : Nat
  gameModeNameSpace : String
  gameModeClass : String
  openable : String → Bool

/-- `PathUtil::GetPathInBin(sub)`: a path under the plugin binary
directory. -/
def getPathInBin (env : Env) (sub : String) : String :=
  env.binDir ++ sub

/-- Modelled from the spec: the state effect of the external call
`GameMode::Load(namespace, class)` whose source (GameMode.cpp, not part
of the bridge file) is unavailable; per spec §3 the GameMode Handle's
`IsLoaded` observable becomes true exactly when `Load` returned true. -/
def gmLoadEffect (ok : Bool) (s : BridgeState) : BridgeState :=
  if ok then { s with gmLoaded := true } else s

/-- Modelled from the spec: the state effect of the external call
`GameMode::Unload()` (source unavailable); per spec §3 the GameMode
Handle reports unloaded afterwards. -/
def gmUnloadEffect (s : BridgeState) : BridgeState :=
  { s with gmLoaded := false }

/-- Modelled from the spec: the state effect of the external call
`MonoRuntime::Load(...)` (source unavailable); per spec §3 the Managed
Runtime Handle reports loaded afterwards, and stays loaded until an
explicit unload. -/
def monoLoadEffect (s : BridgeState) : BridgeState :=
  { s with monoLoaded := true }

/-- Modelled from the spec: the state effect of the external call
`MonoRuntime::Unload()` (source unavailable); per spec §3 the Managed
Runtime Handle reports unloaded afterwards. -/
def monoUnloadEffect (s : BridgeState) : BridgeState :=
  { s with monoLoaded := false }

/-- Tokenizer core mirroring the loop
`while (std::getline(symbols_stream, file, ' '))` over the character list
of a nonempty string: a delimiter ends the current token, and the stream
reaching EOF right after a delimiter ends the loop without another token. -/
def getlineSplit : List Char → List Char → List String
  | [], acc => [String.mk acc.reverse]
  | c :: cs, acc =>
    if c = ' ' then
      if cs.isEmpty then [String.mk acc.reverse]
      else String.mk acc.reverse :: getlineSplit cs []
    else getlineSplit cs (c :: acc)

/-- The token sequence produced by repeated `std::getline(stream, file, ' ')`
on `s`: on an empty stream the first `getline` already fails. -/
def getlineTokens (s : String) : List String :=
  if s.data = [] then [] else getlineSplit s.data []

/-- One iteration of the `convertSymbols` while-loop body
(main.cpp lines 45-57) for the token `file`: log the attempt, resolve the
path under the game-mode directory, and either fail (empty token or
unopenable file) or invoke `mono_convert_symbols`.  Returns the emitted
events and the increment of the `successes` counter. -/
def convertOne (env : Env) (file : String) : List Ev × Nat :=
  let path := env.gameModeDir ++ file
  if file = "" ∨ env.openable path = false then
    ([Ev.log ("Converting: " ++ file), Ev.log "  Failed."], 0)
  else
    ([Ev.log ("Converting: " ++ file), Ev.convertSym path, Ev.log "  Converted."], 1)

/-- The whole `convertSymbols` while-loop over the token list, threading the
`successes` counter. -/
def convertLoop (env : Env) : List String → Nat → List Ev × Nat
  | [], n => ([], n)
  | f :: fs, n =>
    let p := convertOne env f
    let q := convertLoop env fs (n + p.2)
    (p.1 ++ q.1, q.2)

/-- `convertSymbols` (main.cpp lines 34-62): entirely skipped when the
configured symbol-file list is empty; otherwise header lines, the per-file
loop, and the final success-count report. -/
def convertSymbols (env : Env) : List Ev :=
  let symbols := env.symbolFiles
  if 0 < symbols.length then
    let r := convertLoop env (getlineTokens symbols) 0
    [Ev.log "Symbol file generation", Ev.log "----------------------"]
      ++ r.1
      ++ [Ev.log (" Converted " ++ toString r.2 ++ " files."), Ev.log ""]
  else []

/-- `loadGamemode` (main.cpp lines 64-103).  `ok` is the boolean result of
the external call `GameMode::Load(namespace, class)`; per spec §3 the
GameMode Handle reports loaded exactly when that call returned true, and
`MonoRuntime::Load` leaves the runtime loaded. -/
def loadGamemode (env : Env) (ok : Bool) (s : BridgeState) : BridgeState × List Ev :=
  if s.gmLoaded then (s, [])
  else
    let p1 : BridgeState × List Ev :=
      if s.filterscript_loaded then (s, [])
      else ({ s with filterscript_loaded := true }, [Ev.rcon "loadfs empty"])
    let p2 : BridgeState × List Ev :=
      if p1.1.monoLoaded then (p1.1, [])
      else (monoLoadEffect p1.1,
        [Ev.monoLoad env.monoAssemblyDir env.monoConfigDir env.traceLevel
          ((getPathInBin env "gamemode/") ++ env.gameModeNameSpace ++ ".dll")])
    let evs3 := [Ev.setCodepage env.codepage]
    let evs4 := convertSymbols env
    let evs5 := [Ev.log "Gamemode", Ev.log "---------------",
      Ev.log ("Loading gamemode: " ++ env.gameModeNameSpace ++ ":" ++ env.gameModeClass)]
    let p3 : BridgeState × List Ev :=
      (gmLoadEffect ok p2.1,
        [Ev.gmLoad env.gameModeNameSpace env.gameModeClass,
         Ev.log (if ok then "  Loaded." else "  Failed.")])
    (p3.1, p1.2 ++ p2.2 ++ evs3 ++ evs4 ++ evs5 ++ p3.2 ++ [Ev.log ""])

/-- `unloadGamemode` (main.cpp lines 105-119): no-op unless the GameMode
Handle is loaded; otherwise log, call `GameMode::Unload()`, log. -/
def unloadGamemode (env : Env) (s : BridgeState) : BridgeState × List Ev :=
  if s.gmLoaded then
    (gmUnloadEffect s,
      [Ev.log "", Ev.log "---------------",
       Ev.log ("Unloading gamemode: " ++ env.gameModeNameSpace ++ ":" ++ env.gameModeClass),
       Ev.gmUnload, Ev.log "  Unloaded.", Ev.log ""])
  else (s, [])

/-- `OnPublicCall` (main.cpp lines 151-167): the native-event dispatch
entry point.  `ok` is the result `GameMode::Load` would return if the load
sequence reaches it.  Returns the new state, the trace, and the boolean
handed back to the native VM. -/
def onPublicCall (env : Env) (ok : Bool) (name : String) (s : BridgeState) :
    BridgeState × List Ev × Bool :=
  let p : BridgeState × List Ev :=
    if name = "OnGameModeInit" then
      loadGamemode env ok s
    else if s.gmLoaded = true ∧ name = "OnGameModeExit" then
      let q := unloadGamemode env s
      (q.1, Ev.gmProcessPublicCall name :: q.2)
    else (s, [])
  (p.1, p.2 ++ (if p.1.gmLoaded then [Ev.gmProcessPublicCall name] else []), true)

/-- Plugin `Load` (main.cpp lines 125-138).  `gdkOk` is the result of
`sampgdk::Load(ppData)`; on failure the function returns false at once.
Returns the trace and the boolean returned to the host. -/
def pluginLoad (version : String) (gdkOk : Bool) : List Ev × Bool :=
  if gdkOk = false then ([Ev.gdkLoad], false)
  else
    ([Ev.gdkLoad, Ev.wireAmxExports,
      Ev.log "", Ev.log "SampSharp Plugin", Ev.log "----------------",
      Ev.log ("v" ++ version ++ ", (C)2014-2015 Tim Potze"), Ev.log "",
      Ev.configRead], true)

/-- Plugin `Unload` (main.cpp lines 140-144): unconditionally
`GameMode::Unload()`, then `MonoRuntime::Unload()`, then
`sampgdk::Unload()`; per spec §3 both handles report unloaded afterwards. -/
def pluginUnload (s : BridgeState) : BridgeState × List Ev :=
  (monoUnloadEffect (gmUnloadEffect s),
    [Ev.gmUnload, Ev.monoUnload, Ev.gdkUnload])

/-- `ProcessTick` (main.cpp lines 146-149). -/
def processTick : List Ev := [Ev.gmProcessTick, Ev.gdkProcessTick]

/-- One host-driven invocation of the bridge within a process lifetime:
a native event dispatch (carrying the result the external
`GameMode::Load` would produce), the detach entry point, or a tick. -/
inductive HostCall where
  | publicCall (name : String) (ok : Bool)
  | detach
  | tick

/-- The state/trace effect of one host invocation. -/
def step (env : Env) (s : BridgeState) : HostCall → BridgeState × List Ev
  | HostCall.publicCall name ok =>
    let r := onPublicCall env ok name s
    (r.1, r.2.1)
  | HostCall.detach => pluginUnload s
  | HostCall.tick => (s, processTick)

/-- A whole sequence of host invocations, concatenating the traces. -/
def run (env : Env) (s : BridgeState) : List HostCall → BridgeState × List Ev
  | [] => (s, [])
  | a :: as =>
    let r := step env s a
    let r2 := run env r.1 as
    (r2.1, r.2 ++ r2.2)

/-- Recognizes the host-server RCON request issued for the bootstrap
filterscript. -/
def isRcon : Ev → Bool
  | Ev.rcon _ => true
  | _ => false

/-- Recognizes any forward to `GameMode::ProcessPublicCall`. -/
def isPPC : Ev → Bool
  | Ev.gmProcessPublicCall _ => true
  | _ => false

/-- Recognizes a forward of the event named `name` to
`GameMode::ProcessPublicCall`. -/
def isPPCOf (name : String) : Ev → Bool
  | Ev.gmProcessPublicCall n => n == name
  | _ => false

/-- Recognizes a `GameMode::Load` attempt. -/
def isGmLoadCall : Ev → Bool
  | Ev.gmLoad _ _ => true
  | _ => false

/-- Recognizes a `GameMode::Unload` call. -/
def isGmUnloadCall : Ev → Bool
  | Ev.gmUnload => true
  | _ => false

/-- Recognizes a call to the symbol-conversion facility
`mono_convert_symbols`. -/
def isConvertCall : Ev → Bool
  | Ev.convertSym _ => true
  | _ => false

/-- Recognizes the log line reporting one failed symbol conversion. -/
def isFailedLog : Ev → Bool
  | Ev.log s => s == "  Failed."
  | _ => false

/-- Recognizes the `Config::Read()` call of the attach entry point. -/
def isConfigReadCall : Ev → Bool
  | Ev.configRead => true
  | _ => false

/-- Recognizes the wiring of the AMX export table (`pAMXFunctions`). -/
def isWireCall : Ev → Bool
  | Ev.wireAmxExports => true
  | _ => false

/-- Potential of the bootstrap-filterscript flag: 1 while a request may
still be issued, 0 once the flag is set. -/
def pot (s : BridgeState) : Nat :=
  if s.filterscript_loaded then 0 else 1

/-- The load sequence's trace in the order the spec's §4.1 `loadSequence`
prescribes: bootstrap-filterscript request (if not yet requested), then
managed-runtime load (only if not loaded) with the entry assembly path
composed as plugin-binary-directory, `gamemode/`, namespace, `.dll`, then
codepage application, then symbol conversion, then the `GameMode::Load`
attempt. -/
def loadEvents (env : Env) (ok : Bool) (s : BridgeState) : List Ev :=
  (if s.filterscript_loaded then [] else [Ev.rcon "loadfs empty"])
    ++ (if s.monoLoaded then [] else
      [Ev.monoLoad env.monoAssemblyDir env.monoConfigDir env.traceLevel
        (env.binDir ++ "gamemode/" ++ env.gameModeNameSpace ++ ".dll")])
    ++ [Ev.setCodepage env.codepage]
    ++ convertSymbols env
    ++ [Ev.log "Gamemode", Ev.log "---------------",
        Ev.log ("Loading gamemode: " ++ env.gameModeNameSpace ++ ":" ++ env.gameModeClass),
        Ev.gmLoad env.gameModeNameSpace env.gameModeClass,
        Ev.log (if ok then "  Loaded." else "  Failed."), Ev.log ""]

/-- The unload sequence's trace when the GameMode Handle is loaded. -/
def unloadEvents (env : Env) : List Ev :=
  [Ev.log "", Ev.log "---------------",
   Ev.log ("Unloading gamemode: " ++ env.gameModeNameSpace ++ ":" ++ env.gameModeClass),
   Ev.gmUnload, Ev.log "  Unloaded.", Ev.log ""]

/-- A concrete configuration snapshot with no symbol files configured,
used to instantiate universally quantified results. -/
def env0 : Env :=
  { symbolFiles := "", gameModeDir := "gm/", binDir := "bin/",
    monoAssemblyDir := "lib/mono", monoConfigDir := "etc/mono", traceLevel := 0,
    codepage := 1252, gameModeNameSpace := "GM", gameModeClass := "Main",
    openable := fun _ => false }

/-- The configuration snapshot of the symbol-conversion scenario: the
configured list is `"a.dbg  b.dbg"` (with the two spaces written in the
scenario), `a.dbg` resolves to an openable file under the game-mode
directory, and `b.dbg` does not. -/
def envC3 : Env :=
  { symbolFiles := "a.dbg  b.dbg", gameModeDir := "gm/", binDir := "bin/",
    monoAssemblyDir := "lib/mono", monoConfigDir := "etc/mono", traceLevel := 0,
    codepage := 1252, gameModeNameSpace := "GM", gameModeClass := "Main",
    openable := fun p => p == "gm/a.dbg" }

/-- A concrete host-invocation sequence covering two init/exit cycles. -/
def acts0 : List HostCall :=
  [HostCall.publicCall "OnGameModeInit" true,
   HostCall.publicCall "OnPlayerConnect" true,
   HostCall.publicCall "OnGameModeExit" true,
   HostCall.publicCall "OnGameModeInit" true,
   HostCall.tick, HostCall.detach]

lemma convertLoop_countP (env : Env) (p : Ev → Bool)
    (hlog : ∀ t, p (Ev.log t) = false) (hconv : ∀ q, p (Ev.convertSym q) = false) :
    ∀ (fs : List String) (n : Nat), ((convertLoop env fs n).1).countP p = 0 := by
  intro fs
  induction fs with
  | nil => intro n; simp [convertLoop]
  | cons f fs ih =>
    intro n
    simp only [convertLoop, convertOne]
    split_ifs <;>
      simp [List.countP_append, List.countP_cons, hlog, hconv, ih]

lemma convertSymbols_countP (env : Env) (p : Ev → Bool)
    (hlog : ∀ t, p (Ev.log t) = false) (hconv : ∀ q, p (Ev.convertSym q) = false) :
    (convertSymbols env).countP p = 0 := by
  simp only [convertSymbols]
  split_ifs with h
  · simp [List.countP_append, List.countP_cons, hlog,
      convertLoop_countP env p hlog hconv]
  · simp

lemma loadGamemode_not_loaded (env : Env) (ok : Bool) (s : BridgeState)
    (h : s.gmLoaded = false) :
    loadGamemode env ok s = (⟨true, true, ok⟩, loadEvents env ok s) := by
  obtain ⟨fl, ml, gm⟩ := s
  cases gm
  · cases fl <;> cases ml <;> cases ok <;>
      simp [loadGamemode, loadEvents, getPathInBin, gmLoadEffect, monoLoadEffect]
  · exact absurd h (by simp)

lemma loadGamemode_already (env : Env) (ok : Bool) (s : BridgeState)
    (h : s.gmLoaded = true) :
    loadGamemode env ok s = (s, []) := by
  simp [loadGamemode, h]

lemma unloadGamemode_loaded (env : Env) (s : BridgeState)
    (h : s.gmLoaded = true) :
    unloadGamemode env s = ({ s with gmLoaded := false }, unloadEvents env) := by
  simp [unloadGamemode, unloadEvents, gmUnloadEffect, h]

lemma unloadGamemode_already (env : Env) (s : BridgeState)
    (h : s.gmLoaded = false) :
    unloadGamemode env s = (s, []) := by
  simp [unloadGamemode, h]

lemma loadEvents_countP (env : Env) (ok : Bool) (s : BridgeState) (p : Ev → Bool)
    (hlog : ∀ t, p (Ev.log t) = false) (hconv : ∀ q, p (Ev.convertSym q) = false)
    (hrcon : ∀ c, p (Ev.rcon c) = false)
    (hmono : ∀ a b t e, p (Ev.monoLoad a b t e) = false)
    (hcp : ∀ c, p (Ev.setCodepage c) = false)
    (hgml : ∀ a b, p (Ev.gmLoad a b) = false) :
    (loadEvents env ok s).countP p = 0 := by
  cases hfl : s.filterscript_loaded <;> cases hml : s.monoLoaded <;>
    simp [loadEvents, List.countP_append, List.countP_cons, hlog, hconv, hrcon,
      hmono, hcp, hgml, convertSymbols_countP env p hlog hconv, hfl, hml]

lemma loadEvents_ppc (env : Env) (ok : Bool) (s : BridgeState) :
    (loadEvents env ok s).countP isPPC = 0 :=
  loadEvents_countP env ok s isPPC (fun _ => rfl) (fun _ => rfl) (fun _ => rfl)
    (fun _ _ _ _ => rfl) (fun _ => rfl) (fun _ _ => rfl)

lemma loadEvents_ppcOf (env : Env) (ok : Bool) (s : BridgeState) (name : String) :
    (loadEvents env ok s).countP (isPPCOf name) = 0 :=
  loadEvents_countP env ok s (isPPCOf name) (fun _ => rfl) (fun _ => rfl)
    (fun _ => rfl) (fun _ _ _ _ => rfl) (fun _ => rfl) (fun _ _ => rfl)

lemma loadEvents_rcon_pot (env : Env) (ok : Bool) (s : BridgeState) :
    (loadEvents env ok s).countP isRcon = pot s := by
  cases hfl : s.filterscript_loaded <;> cases hml : s.monoLoaded <;>
    simp [loadEvents, pot, List.countP_append, List.countP_cons, isRcon, hfl, hml,
      convertSymbols_countP env isRcon (fun _ => rfl) (fun _ => rfl)]

lemma loadEvents_gmload (env : Env) (ok : Bool) (s : BridgeState) :
    (loadEvents env ok s).countP isGmLoadCall = 1 := by
  cases hfl : s.filterscript_loaded <;> cases hml : s.monoLoaded <;>
    simp [loadEvents, List.countP_append, List.countP_cons, isGmLoadCall, hfl, hml,
      convertSymbols_countP env isGmLoadCall (fun _ => rfl) (fun _ => rfl)]

lemma unloadEvents_rcon (env : Env) :
    (unloadEvents env).countP isRcon = 0 := by
  simp [unloadEvents, List.countP_cons, isRcon]

lemma unloadEvents_ppc (env : Env) :
    (unloadEvents env).countP isPPC = 0 := by
  simp [unloadEvents, List.countP_cons, isPPC]

lemma pot_le_one (s : BridgeState) : pot s ≤ 1 := by
  unfold pot; split_ifs <;> omega

lemma pot_eq_zero (s : BridgeState) :
    pot s = 0 ↔ s.filterscript_loaded = true := by
  unfold pot; split_ifs with h <;> simp [h]

lemma loadGamemode_pot (env : Env) (ok : Bool) (s : BridgeState) :
    (loadGamemode env ok s).2.countP isRcon + pot (loadGamemode env ok s).1 = pot s := by
  cases h : s.gmLoaded
  · rw [loadGamemode_not_loaded env ok s h]
    simp [loadEvents_rcon_pot, pot]
  · rw [loadGamemode_already env ok s h]
    simp

lemma onPublicCall_init_eq (env : Env) (ok : Bool) (s : BridgeState) :
    onPublicCall env ok "OnGameModeInit" s =
      ((loadGamemode env ok s).1,
        (loadGamemode env ok s).2
          ++ (if (loadGamemode env ok s).1.gmLoaded then
                [Ev.gmProcessPublicCall "OnGameModeInit"] else []),
        true) := by
  simp [onPublicCall]

lemma onPublicCall_exit_eq (env : Env) (ok : Bool) (s : BridgeState)
    (h : s.gmLoaded = true) :
    onPublicCall env ok "OnGameModeExit" s =
      ({ s with gmLoaded := false },
        Ev.gmProcessPublicCall "OnGameModeExit" :: unloadEvents env, true) := by
  simp [onPublicCall, unloadGamemode_loaded env s h, h]

lemma onPublicCall_other_eq (env : Env) (ok : Bool) (name : String) (s : BridgeState)
    (h1 : name ≠ "OnGameModeInit")
    (h2 : s.gmLoaded = false ∨ name ≠ "OnGameModeExit") :
    onPublicCall env ok name s =
      (s, (if s.gmLoaded then [Ev.gmProcessPublicCall name] else []), true) := by
  rcases h2 with h2 | h2 <;> simp [onPublicCall, h1, h2]

lemma onPublicCall_pot (env : Env) (ok : Bool) (name : String) (s : BridgeState) :
    (onPublicCall env ok name s).2.1.countP isRcon
      + pot (onPublicCall env ok name s).1 = pot s := by
  by_cases h1 : name = "OnGameModeInit"
  · subst h1
    rw [onPublicCall_init_eq]
    have htr : (if (loadGamemode env ok s).1.gmLoaded then
        [Ev.gmProcessPublicCall "OnGameModeInit"] else []).countP isRcon = 0 := by
      split_ifs <;> simp [isRcon]
    have hp := loadGamemode_pot env ok s
    simp only [List.countP_append, htr]
    omega
  · by_cases h2 : s.gmLoaded = true ∧ name = "OnGameModeExit"
    · obtain ⟨hgm, hname⟩ := h2
      subst hname
      rw [onPublicCall_exit_eq env ok s hgm]
      simp [List.countP_cons, isRcon, unloadEvents_rcon, pot]
    · have h2' : s.gmLoaded = false ∨ name ≠ "OnGameModeExit" := by
        rcases hb : s.gmLoaded with _ | _
        · exact Or.inl rfl
        · exact Or.inr (fun hn => h2 ⟨hb, hn⟩)
      rw [onPublicCall_other_eq env ok name s h1 h2']
      split_ifs <;> simp [isRcon, pot]

lemma step_pot (env : Env) (s : BridgeState) (a : HostCall) :
    (step env s a).2.countP isRcon + pot (step env s a).1 = pot s := by
  cases a with
  | publicCall name ok => simpa [step] using onPublicCall_pot env ok name s
  | detach =>
    simp [step, pluginUnload, pot, isRcon, List.countP_cons, gmUnloadEffect,
      monoUnloadEffect]
  | tick => simp [step, processTick, pot, isRcon, List.countP_cons]

lemma run_pot (env : Env) :
    ∀ (acts : List HostCall) (s : BridgeState),
      (run env s acts).2.countP isRcon + pot (run env s acts).1 = pot s := by
  intro acts
  induction acts with
  | nil => intro s; simp [run]
  | cons a as ih =>
    intro s
    have h1 := step_pot env s a
    have h2 := ih (step env s a).1
    simp only [run, List.countP_append]
    omega

/-- Claim C1: for every event name other than "OnGameModeInit" and
"OnGameModeExit", `OnPublicCall` forwards the event to
`GameMode::ProcessPublicCall` exactly once when the game mode is loaded
and zero times when it is not, leaves the state unchanged, and in both
cases returns true. -/
theorem onPublicCall_generic_forwarding (env : Env) (ok : Bool) (name : String)
    (s : BridgeState) (h1 : name ≠ "OnGameModeInit") (h2 : name ≠ "OnGameModeExit") :
    onPublicCall env ok name s =
      (s, (if s.gmLoaded then [Ev.gmProcessPublicCall name] else []), true)
    ∧ (onPublicCall env ok name s).2.1.countP (isPPCOf name)
        = (if s.gmLoaded then 1 else 0)
    ∧ (onPublicCall env ok name s).2.2 = true := by
  have he := onPublicCall_other_eq env ok name s h1 (Or.inr h2)
  refine ⟨he, ?_, by rw [he]⟩
  rw [he]
  rcases h : s.gmLoaded with _ | _ <;> simp [h, isPPCOf, List.countP_cons]

/-- Concrete instance of the C1 theorem at an undistinguished event name,
once in the unloaded state and once in the loaded state. -/
theorem onPublicCall_generic_forwarding_witness :
    (onPublicCall env0 true "OnPlayerConnect" initState =
      (initState,
        (if initState.gmLoaded then [Ev.gmProcessPublicCall "OnPlayerConnect"] else []),
        true))
    ∧ (onPublicCall env0 true "OnPlayerConnect" ⟨true, true, true⟩).2.1.countP
        (isPPCOf "OnPlayerConnect")
        = (if (⟨true, true, true⟩ : BridgeState).gmLoaded then 1 else 0) :=
  ⟨(onPublicCall_generic_forwarding env0 true "OnPlayerConnect" initState
      (by decide) (by decide)).1,
   (onPublicCall_generic_forwarding env0 true "OnPlayerConnect" ⟨true, true, true⟩
      (by decide) (by decide)).2.1⟩

/-- Claim C2: "OnGameModeExit" while the game mode is loaded: the exit
event is forwarded to `GameMode::ProcessPublicCall` exactly once, strictly
before `GameMode::Unload()`; afterwards the game mode is no longer loaded
and the exit event is not re-delivered by the trailing
forward-if-loaded step. -/
theorem onPublicCall_exit_when_loaded (env : Env) (ok : Bool) (s : BridgeState)
    (h : s.gmLoaded = true) :
    onPublicCall env ok "OnGameModeExit" s =
      ({ s with gmLoaded := false },
        Ev.gmProcessPublicCall "OnGameModeExit" :: unloadEvents env, true)
    ∧ (onPublicCall env ok "OnGameModeExit" s).2.1.countP (isPPCOf "OnGameModeExit") = 1
    ∧ (onPublicCall env ok "OnGameModeExit" s).1.gmLoaded = false
    ∧ (∃ l₁ l₂, (onPublicCall env ok "OnGameModeExit" s).2.1
          = l₁ ++ Ev.gmUnload :: l₂
        ∧ Ev.gmProcessPublicCall "OnGameModeExit" ∈ l₁
        ∧ Ev.gmProcessPublicCall "OnGameModeExit" ∉ l₂) := by
  have he := onPublicCall_exit_eq env ok s h
  refine ⟨he, ?_, by rw [he], ?_⟩
  · rw [he]
    simp [unloadEvents, List.countP_cons, isPPCOf]
  · refine ⟨[Ev.gmProcessPublicCall "OnGameModeExit", Ev.log "", Ev.log "---------------",
      Ev.log ("Unloading gamemode: " ++ env.gameModeNameSpace ++ ":" ++ env.gameModeClass)],
      [Ev.log "  Unloaded.", Ev.log ""], ?_, by simp, by simp⟩
    rw [he]
    simp [unloadEvents]

/-- Concrete instance of the C2 theorem from the fully-loaded state. -/
theorem onPublicCall_exit_when_loaded_witness :
    onPublicCall env0 false "OnGameModeExit" ⟨true, true, true⟩ =
      ({ (⟨true, true, true⟩ : BridgeState) with gmLoaded := false },
        Ev.gmProcessPublicCall "OnGameModeExit" :: unloadEvents env0, true) :=
  (onPublicCall_exit_when_loaded env0 false ⟨true, true, true⟩ rfl).1

/-- Counterexample to claim C3 as stated: in the scenario with configured
list "a.dbg  b.dbg" (two spaces, as written), where a.dbg is openable and
b.dbg is not, the number of "  Failed." lines logged by the symbol
conversion is not one — the empty token produced between the two spaces
also fails. -/
theorem convertSymbols_single_failure_cex :
    ¬ ((convertSymbols envC3).countP isFailedLog = 1) := by decide

/-- Claim C3 (amended): symbol conversion with an empty configured list
produces no events at all (zero log lines, zero conversion calls); in the
"a.dbg  b.dbg" scenario exactly one conversion call is made, the report
line counts one successful conversion, and exactly two failures are
logged (a.dbg succeeds; the empty token between the doubled spaces and
the unopenable b.dbg each fail); and whenever the load sequence runs with
the game mode not loaded it goes on to attempt `GameMode::Load` exactly
once regardless of symbol-conversion outcomes. -/
theorem convertSymbols_report_amended :
    (∀ env : Env, env.symbolFiles = "" → convertSymbols env = [])
    ∧ (convertSymbols envC3).countP isConvertCall = 1
    ∧ Ev.log " Converted 1 files." ∈ convertSymbols envC3
    ∧ (convertSymbols envC3).countP isFailedLog = 2
    ∧ (∀ (env : Env) (ok : Bool) (s : BridgeState), s.gmLoaded = false →
        (loadGamemode env ok s).2.countP isGmLoadCall = 1) := by
  refine ⟨?_, by decide, by decide, by decide, ?_⟩
  · intro env h
    simp [convertSymbols, h]
  · intro env ok s h
    rw [loadGamemode_not_loaded env ok s h]
    simpa using loadEvents_gmload env ok s

/-- Concrete instance of the amended C3 theorem: the no-symbol-files
configuration yields the empty trace, and the load sequence in the
"a.dbg  b.dbg" scenario still attempts the game-mode load. -/
theorem convertSymbols_report_amended_witness :
    convertSymbols env0 = []
    ∧ (loadGamemode envC3 true initState).2.countP isGmLoadCall = 1 :=
  ⟨convertSymbols_report_amended.1 env0 rfl,
   convertSymbols_report_amended.2.2.2.2 envC3 true initState rfl⟩

/-- Claim C4: over any sequence of host invocations in one process
lifetime, the bridge issues the bootstrap-filterscript RCON request at
most once; once the `filterscript_loaded` flag is set it is never cleared
and no further request is ever issued; and any invocation that issues a
request leaves the flag set. -/
theorem filterscript_requested_at_most_once (env : Env) (acts : List HostCall) :
    (run env initState acts).2.countP isRcon ≤ 1
    ∧ (∀ (s : BridgeState) (acts' : List HostCall), s.filterscript_loaded = true →
        (run env s acts').1.filterscript_loaded = true
        ∧ (run env s acts').2.countP isRcon = 0)
    ∧ (∀ (s : BridgeState) (a : HostCall),
        0 < (step env s a).2.countP isRcon →
        (step env s a).1.filterscript_loaded = true) := by
  refine ⟨?_, ?_, ?_⟩
  · have h := run_pot env acts initState
    have h0 : pot initState = 1 := rfl
    omega
  · intro s acts' hs
    have h := run_pot env acts' s
    have h0 : pot s = 0 := by simp [pot, hs]
    have h1 : (run env s acts').2.countP isRcon = 0 := by omega
    have h2 : pot (run env s acts').1 = 0 := by omega
    exact ⟨(pot_eq_zero _).1 h2, h1⟩
  · intro s a hpos
    have h := step_pot env s a
    have hle := pot_le_one s
    have h2 : pot (step env s a).1 = 0 := by omega
    exact (pot_eq_zero _).1 h2

/-- Concrete instance of the C4 theorem on two init/exit cycles. -/
theorem filterscript_requested_at_most_once_witness :
    (run env0 initState acts0).2.countP isRcon ≤ 1
    ∧ (run env0 ⟨true, false, false⟩ acts0).1.filterscript_loaded = true
    ∧ (step env0 initState (HostCall.publicCall "OnGameModeInit" true)).1.filterscript_loaded
        = true :=
  ⟨(filterscript_requested_at_most_once env0 acts0).1,
   ((filterscript_requested_at_most_once env0 acts0).2.1 ⟨true, false, false⟩ acts0 rfl).1,
   (filterscript_requested_at_most_once env0 acts0).2.2 initState
     (HostCall.publicCall "OnGameModeInit" true) (by decide)⟩

/-- Claim C5: lifecycle operations are idempotent no-ops in the target
state: the load sequence invoked while the game mode is loaded performs
no calls at all (no filterscript request, no runtime load, no second
`GameMode::Load`), and the unload sequence invoked while already unloaded
performs no calls, in particular zero calls to `GameMode::Unload()`. -/
theorem lifecycle_noops (env : Env) (ok : Bool) (s₁ s₂ : BridgeState)
    (h1 : s₁.gmLoaded = true) (h2 : s₂.gmLoaded = false) :
    loadGamemode env ok s₁ = (s₁, [])
    ∧ unloadGamemode env s₂ = (s₂, [])
    ∧ (unloadGamemode env s₂).2.countP isGmUnloadCall = 0 := by
  refine ⟨loadGamemode_already env ok s₁ h1, unloadGamemode_already env s₂ h2, ?_⟩
  rw [unloadGamemode_already env s₂ h2]
  rfl

/-- Concrete instance of the C5 theorem. -/
theorem lifecycle_noops_witness :
    loadGamemode env0 true ⟨true, true, true⟩ = (⟨true, true, true⟩, [])
    ∧ unloadGamemode env0 initState = (initState, []) :=
  ⟨(lifecycle_noops env0 true ⟨true, true, true⟩ initState rfl rfl).1,
   (lifecycle_noops env0 true ⟨true, true, true⟩ initState rfl rfl).2.1⟩

/-- Claim C6: "OnGameModeInit" while the game mode is not loaded, with the
load sequence succeeding synchronously: the freshly-loaded game mode
receives the init event itself through the trailing forward-if-loaded
step — the whole dispatch forwards it exactly once, at the very end,
after the load sequence (which itself forwards nothing). -/
theorem onPublicCall_init_self_forward (env : Env) (s : BridgeState)
    (h : s.gmLoaded = false) :
    onPublicCall env true "OnGameModeInit" s =
      ((loadGamemode env true s).1,
        (loadGamemode env true s).2 ++ [Ev.gmProcessPublicCall "OnGameModeInit"],
        true)
    ∧ (loadGamemode env true s).1.gmLoaded = true
    ∧ (loadGamemode env true s).2.countP isPPC = 0
    ∧ (onPublicCall env true "OnGameModeInit" s).2.1.countP (isPPCOf "OnGameModeInit") = 1 := by
  have hl := loadGamemode_not_loaded env true s h
  have hst : (loadGamemode env true s).1.gmLoaded = true := by rw [hl]
  have heq : onPublicCall env true "OnGameModeInit" s =
      ((loadGamemode env true s).1,
        (loadGamemode env true s).2 ++ [Ev.gmProcessPublicCall "OnGameModeInit"],
        true) := by
    rw [onPublicCall_init_eq env true s, hst]
    simp
  refine ⟨heq, hst, ?_, ?_⟩
  · rw [hl]
    simpa using loadEvents_ppc env true s
  · rw [heq]
    have h0 : (loadGamemode env true s).2.countP (isPPCOf "OnGameModeInit") = 0 := by
      rw [hl]
      simpa using loadEvents_ppcOf env true s "OnGameModeInit"
    simp [List.countP_append, List.countP_cons, h0, isPPCOf]

/-- Concrete instance of the C6 theorem. -/
theorem onPublicCall_init_self_forward_witness :
    (onPublicCall env0 true "OnGameModeInit" initState).2.1.countP
      (isPPCOf "OnGameModeInit") = 1 :=
  (onPublicCall_init_self_forward env0 initState rfl).2.2.2

/-- Claim C7: the load sequence, from a state where the game mode is not
loaded, performs its steps in order: bootstrap-filterscript request (if
not yet requested), managed-runtime load (only if not loaded) with the
entry assembly path composed from the plugin binary directory, the
`gamemode/` folder, the configured namespace and `.dll`, then codepage
application, then symbol conversion, then exactly one `GameMode::Load`
attempt — the trace is exactly `loadEvents`. -/
theorem loadSequence_step_order (env : Env) (ok : Bool) (s : BridgeState)
    (h : s.gmLoaded = false) :
    loadGamemode env ok s = (⟨true, true, ok⟩, loadEvents env ok s)
    ∧ (loadEvents env ok s).countP isGmLoadCall = 1 :=
  ⟨loadGamemode_not_loaded env ok s h, loadEvents_gmload env ok s⟩

/-- Concrete instance of the C7 theorem. -/
theorem loadSequence_step_order_witness :
    loadGamemode env0 true initState = (⟨true, true, true⟩, loadEvents env0 true initState) :=
  (loadSequence_step_order env0 true initState rfl).1

/-- Claim C8: the detach entry point always calls `GameMode::Unload()`
before `MonoRuntime::Unload()`, in that order and exactly once each,
regardless of the current lifecycle state — even when the game mode is
not loaded, the managed-runtime unload still occurs. -/
theorem detach_unloads_gamemode_then_runtime (s : BridgeState) :
    pluginUnload s = ({ s with gmLoaded := false, monoLoaded := false },
      [Ev.gmUnload, Ev.monoUnload, Ev.gdkUnload])
    ∧ (∃ l₁ l₂, (pluginUnload s).2 = l₁ ++ Ev.monoUnload :: l₂
        ∧ Ev.gmUnload ∈ l₁)
    ∧ (pluginUnload s).2.countP isGmUnloadCall = 1
    ∧ (pluginUnload s).2.countP (fun e => e == Ev.monoUnload) = 1 := by
  exact ⟨rfl, ⟨[Ev.gmUnload], [Ev.gdkUnload], rfl, by simp⟩, rfl, rfl⟩

/-- Concrete instance of the C8 theorem from the unloaded state. -/
theorem detach_unloads_gamemode_then_runtime_witness :
    pluginUnload initState = ({ initState with gmLoaded := false, monoLoaded := false },
      [Ev.gmUnload, Ev.monoUnload, Ev.gdkUnload]) :=
  (detach_unloads_gamemode_then_runtime initState).1

/-- Claim C9: the attach entry point returns false whenever
`sampgdk::Load` fails, and in that case performs none of the subsequent
attach work — no export-table wiring and no configuration read; when the
base attach succeeds it returns true. -/
theorem attach_failure_short_circuit (version : String) :
    pluginLoad version false = ([Ev.gdkLoad], false)
    ∧ (pluginLoad version false).1.countP isConfigReadCall = 0
    ∧ (pluginLoad version false).1.countP isWireCall = 0
    ∧ (pluginLoad version true).2 = true := by
  exact ⟨rfl, rfl, rfl, rfl⟩

/-- Concrete instance of the C9 theorem. -/
theorem attach_failure_short_circuit_witness :
    pluginLoad "0.5" false = ([Ev.gdkLoad], false)
    ∧ (pluginLoad "0.5" true).2 = true :=
  ⟨(attach_failure_short_circuit "0.5").1, (attach_failure_short_circuit "0.5").2.2.2⟩

/-- Claim C10: "OnGameModeExit" while the game mode is not loaded: no
forward to `GameMode::ProcessPublicCall`, no call to
`GameMode::Unload()`, the whole lifecycle state (filterscript flag,
runtime, game mode) is unchanged, and the dispatch still returns true. -/
theorem onPublicCall_exit_when_not_loaded (env : Env) (ok : Bool) (s : BridgeState)
    (h : s.gmLoaded = false) :
    onPublicCall env ok "OnGameModeExit" s = (s, [], true)
    ∧ (onPublicCall env ok "OnGameModeExit" s).2.1.countP isPPC = 0
    ∧ (onPublicCall env ok "OnGameModeExit" s).2.1.countP isGmUnloadCall = 0 := by
  have he := onPublicCall_other_eq env ok "OnGameModeExit" s (by decide) (Or.inl h)
  rw [h] at he
  simp only [if_false, Bool.false_eq_true] at he
  exact ⟨he, by rw [he]; rfl, by rw [he]; rfl⟩

/-- Concrete instance of the C10 theorem. -/
theorem onPublicCall_exit_when_not_loaded_witness :
    onPublicCall env0 true "OnGameModeExit" initState = (initState, [], true) :=
  (onPublicCall_exit_when_not_loaded env0 true initState rfl).1
